import Mathlib

/-!
# Verification of the ai-openscad render pipeline

Shallow embedding of the render service (`render-service/app/renderer.py`,
`render-service/app/queue_processor.py`) and of the backend cleanup sweeper
(`backend/app/core/cleanup.py`), with theorems settling the frozen claims
about the natural-language specification.

External effects (the OpenSCAD subprocess, the Xvfb display process, the
filesystem, the Redis store) are modelled explicitly: the outcome of one
subprocess invocation is an input to the embedded function, process
lifecycle actions are recorded in an event trace, and the Redis record
store is a key-to-record map updated by full-replacement writes, mirroring
`SETEX key ttl json.dumps(job)`.
-/

namespace AiOpenscad

/-! ## Render executor (`renderer.py`) -/

/-- Outcome of one `subprocess.run` invocation of the OpenSCAD binary:
either the process finished with an exit code and captured stderr text,
or `subprocess.run` raised `TimeoutExpired` (in which case Python has
already killed and reaped the child before raising), or some other
exception was raised while running the tool. -/
inductive ProcResult where
  | finished (returncode : Int) (stderr : String)
  | timeout
  | raised (msg : String)
deriving DecidableEq

/-- Process-lifecycle events performed by a render invocation, in order.
`startXvfb` is `subprocess.Popen(['Xvfb', ':99', ...])`; `runTool` is the
`subprocess.run` of the OpenSCAD command; `terminateXvfb` is the
`xvfb.terminate(); xvfb.wait()` pair in the `finally` block. -/
inductive Eff where
  | startXvfb
  | runTool
  | terminateXvfb
deriving DecidableEq

/-- Exceptions that can escape the inner `try` of `render_png` /
`render_stl` and reach the `except` clauses. -/
inductive PyExn where
  | timeoutExpired
  | other (msg : String)
deriving DecidableEq

/-- Environment of one `render_png` call: whether `subprocess.Popen` of
Xvfb itself raises (caught by the outer `except Exception`), what the
OpenSCAD `subprocess.run` does, and whether `output_file.exists()` holds
after a finished run. -/
structure PngEnv where
  popenFails : Bool
  popenMsg : String
  run : ProcResult
  outputExists : Bool
deriving DecidableEq

/-- Environment of one `render_stl` call (no display process involved). -/
structure StlEnv where
  run : ProcResult
  outputExists : Bool
deriving DecidableEq

/-- Python `str.strip()`: remove leading and trailing whitespace.
(Core `String.trim` is defined by well-founded recursion over byte
positions, which the kernel cannot evaluate, so this structurally
recursive equivalent over the character list is used instead.) -/
def pyStrip (s : String) : String :=
  ⟨((s.data.dropWhile Char.isWhitespace).reverse.dropWhile Char.isWhitespace).reverse⟩

/-- The body of the inner `try` of `render_png` (renderer.py lines 60-83):
run OpenSCAD, classify a non-zero exit, check the output file, or let an
exception propagate to the `except` clauses.  Mirrors Python truthiness:
`result.stderr.strip() if result.stderr else "OpenSCAD rendering failed"`. -/
def pngBody (env : PngEnv) : Except PyExn (Bool × Option String) :=
  match env.run with
  | .timeout => .error .timeoutExpired
  | .raised m => .error (.other m)
  | .finished rc stderr =>
    if rc ≠ 0 then
      .ok (false, some (if stderr ≠ "" then pyStrip stderr else "OpenSCAD rendering failed"))
    else if env.outputExists = false then
      .ok (false, some "Preview image not created")
    else
      .ok (true, none)

/-- `OpenSCADRenderer.render_png` (renderer.py lines 19-96).  Returns the
Python result tuple `(success, error_message)` together with the trace of
process-lifecycle effects.  The `finally` block guarantees
`terminateXvfb` follows `runTool` in every branch of the inner body, and
the outer `except` clauses turn `TimeoutExpired` into the timeout failure
message and any other exception into `"Rendering error: ..."`.  If
`Popen` of Xvfb itself raises, no display process was started and the
outer `except Exception` returns the error. -/
def render_png (timeoutS : Nat) (env : PngEnv) : (Bool × Option String) × List Eff :=
  if env.popenFails then
    ((false, some ("Rendering error: " ++ env.popenMsg)), [])
  else
    -- inner try ... finally: every path through the body ends with
    -- xvfb.terminate(); xvfb.wait() before control reaches the except clauses
    match pngBody env with
    | .ok r => (r, [.startXvfb, .runTool, .terminateXvfb])
    | .error .timeoutExpired =>
      ((false, some ("Rendering timeout (" ++ toString timeoutS ++ "s exceeded)")),
        [.startXvfb, .runTool, .terminateXvfb])
    | .error (.other m) =>
      ((false, some ("Rendering error: " ++ m)), [.startXvfb, .runTool, .terminateXvfb])

/-- The body of the `try` of `render_stl` (renderer.py lines 108-135). -/
def stlBody (env : StlEnv) : Except PyExn (Bool × Option String) :=
  match env.run with
  | .timeout => .error .timeoutExpired
  | .raised m => .error (.other m)
  | .finished rc stderr =>
    if rc ≠ 0 then
      .ok (false, some (if stderr ≠ "" then pyStrip stderr else "STL generation failed"))
    else if env.outputExists = false then
      .ok (false, some "STL file not created")
    else
      .ok (true, none)

/-- `OpenSCADRenderer.render_stl` (renderer.py lines 98-144): no display
process, a single `subprocess.run` guarded by `try/except`. -/
def render_stl (timeoutS : Nat) (env : StlEnv) : (Bool × Option String) × List Eff :=
  match stlBody env with
  | .ok r => (r, [.runTool])
  | .error .timeoutExpired =>
    ((false, some ("STL rendering timeout (" ++ toString timeoutS ++ "s exceeded)")), [.runTool])
  | .error (.other m) =>
    ((false, some ("STL rendering error: " ++ m)), [.runTool])

/-! ### Helper lemmas about the render executor -/

theorem render_png_trace (timeoutS : Nat) (env : PngEnv) :
    (render_png timeoutS env).2
      = if env.popenFails then [] else [Eff.startXvfb, Eff.runTool, Eff.terminateXvfb] := by
  rcases env with ⟨pf, pm, run, oe⟩
  cases pf
  · cases h : pngBody ⟨false, pm, run, oe⟩ with
    | ok r => simp [render_png, h]
    | error e => cases e <;> simp [render_png, h]
  · simp [render_png]

theorem render_png_of_timeout (timeoutS : Nat) (env : PngEnv)
    (hpop : env.popenFails = false) (hrun : env.run = ProcResult.timeout) :
    (render_png timeoutS env).1
      = (false, some ("Rendering timeout (" ++ toString timeoutS ++ "s exceeded)")) := by
  rcases env with ⟨pf, pm, run, oe⟩
  simp only at hpop hrun
  subst hpop hrun
  simp [render_png, pngBody]

theorem render_stl_of_timeout (timeoutS : Nat) (env : StlEnv)
    (hrun : env.run = ProcResult.timeout) :
    (render_stl timeoutS env).1
      = (false, some ("STL rendering timeout (" ++ toString timeoutS ++ "s exceeded)")) := by
  rcases env with ⟨run, oe⟩
  simp only at hrun
  subst hrun
  simp [render_stl, stlBody]

theorem render_png_xvfb_balanced (timeoutS : Nat) (env : PngEnv) :
    (render_png timeoutS env).2.count Eff.startXvfb
      = (render_png timeoutS env).2.count Eff.terminateXvfb := by
  rw [render_png_trace]
  cases hpf : env.popenFails <;> simp

theorem render_png_success_outputExists (timeoutS : Nat) (env : PngEnv)
    (h : (render_png timeoutS env).1.1 = true) : env.outputExists = true := by
  rcases env with ⟨pf, pm, run, oe⟩
  cases pf
  · cases run with
    | finished rc st =>
      by_cases hrc : rc = 0
      · subst hrc
        cases oe
        · simp [render_png, pngBody] at h
        · rfl
      · simp [render_png, pngBody, hrc] at h
    | timeout => simp [render_png, pngBody] at h
    | raised m => simp [render_png, pngBody] at h
  · simp [render_png] at h

theorem render_stl_success_outputExists (timeoutS : Nat) (env : StlEnv)
    (h : (render_stl timeoutS env).1.1 = true) : env.outputExists = true := by
  rcases env with ⟨run, oe⟩
  cases run with
  | finished rc st =>
    by_cases hrc : rc = 0
    · subst hrc
      cases oe
      · simp [render_stl, stlBody] at h
      · rfl
    · simp [render_stl, stlBody, hrc] at h
  | timeout => simp [render_stl, stlBody] at h
  | raised m => simp [render_stl, stlBody] at h

/-! ### Claims C5, C6, C7 -/

/-- **C5.** For every invocation of the preview render that starts the
auxiliary headless display (Xvfb) process, that display process is
terminated before the invocation returns, on every exit path: success,
non-zero tool exit, missing output file, timeout, and any other exception
raised while the tool runs.  Formally: in the effect trace of any
`render_png` call the number of `startXvfb` events equals the number of
`terminateXvfb` events, and whenever the display was started the last
effect before returning is its termination. -/
theorem C5_xvfb_released (timeoutS : Nat) (env : PngEnv) :
    ((render_png timeoutS env).2.count Eff.startXvfb
      = (render_png timeoutS env).2.count Eff.terminateXvfb)
    ∧ (Eff.startXvfb ∈ (render_png timeoutS env).2 →
        (render_png timeoutS env).2.getLast? = some Eff.terminateXvfb) := by
  refine ⟨render_png_xvfb_balanced timeoutS env, ?_⟩
  rw [render_png_trace]
  cases hpf : env.popenFails <;> simp

/-- Witness for C5 at a concrete input: a timeout run where the display
was started and is terminated last. -/
theorem C5_xvfb_released_witness :
    Eff.startXvfb ∈ (render_png 120 ⟨false, "", ProcResult.timeout, false⟩).2
    ∧ (render_png 120 ⟨false, "", ProcResult.timeout, false⟩).2.getLast?
        = some Eff.terminateXvfb := by
  have hmem : Eff.startXvfb ∈ (render_png 120 ⟨false, "", ProcResult.timeout, false⟩).2 := by
    rw [render_png_trace]
    decide
  exact ⟨hmem, (C5_xvfb_released 120 ⟨false, "", ProcResult.timeout, false⟩).2 hmem⟩

/-- **C6.** For every render invocation (preview or export) in which the
external tool runs past the configured wall-clock timeout, render returns
a Failure whose reason reports the timeout; it does not raise (the model
is a total function whose result is the returned tuple), and it leaves no
display process running (the trace terminates any started Xvfb; the
subprocess itself is killed by `subprocess.run` before `TimeoutExpired`
is raised, which is what the `timeout` outcome models). -/
theorem C6_timeout_failure (timeoutS : Nat) (penv : PngEnv) (senv : StlEnv)
    (hpop : penv.popenFails = false) (hp : penv.run = ProcResult.timeout)
    (hs : senv.run = ProcResult.timeout) :
    (render_png timeoutS penv).1
      = (false, some ("Rendering timeout (" ++ toString timeoutS ++ "s exceeded)"))
    ∧ (render_png timeoutS penv).2.count Eff.startXvfb
        = (render_png timeoutS penv).2.count Eff.terminateXvfb
    ∧ (render_stl timeoutS senv).1
      = (false, some ("STL rendering timeout (" ++ toString timeoutS ++ "s exceeded)")) :=
  ⟨render_png_of_timeout timeoutS penv hpop hp,
   render_png_xvfb_balanced timeoutS penv,
   render_stl_of_timeout timeoutS senv hs⟩

/-- Witness for C6 at a concrete input. -/
theorem C6_timeout_failure_witness :
    (render_png 120 ⟨false, "", ProcResult.timeout, false⟩).1
      = (false, some "Rendering timeout (120s exceeded)")
    ∧ (render_stl 120 ⟨ProcResult.timeout, false⟩).1
      = (false, some "STL rendering timeout (120s exceeded)") := by
  have h := C6_timeout_failure 120 ⟨false, "", ProcResult.timeout, false⟩
    ⟨ProcResult.timeout, false⟩ rfl rfl rfl
  exact ⟨h.1, h.2.2⟩

/-- **C7.** For every render invocation in which the tool exits with code
0 but the expected output file does not exist afterwards, render returns
a Failure saying the output was not created; and render reports Success
only when the expected output file exists. -/
theorem C7_output_checked (timeoutS : Nat) (penv : PngEnv) (senv : StlEnv)
    (stderrP stderrS : String)
    (hpop : penv.popenFails = false) :
    (penv.run = ProcResult.finished 0 stderrP → penv.outputExists = false →
      (render_png timeoutS penv).1 = (false, some "Preview image not created"))
    ∧ ((render_png timeoutS penv).1.1 = true → penv.outputExists = true)
    ∧ (senv.run = ProcResult.finished 0 stderrS → senv.outputExists = false →
      (render_stl timeoutS senv).1 = (false, some "STL file not created"))
    ∧ ((render_stl timeoutS senv).1.1 = true → senv.outputExists = true) := by
  refine ⟨?_, render_png_success_outputExists timeoutS penv,
          ?_, render_stl_success_outputExists timeoutS senv⟩
  · intro hrun hoe
    rcases penv with ⟨pf, pm, run, oe⟩
    simp only at hpop hrun hoe
    subst hpop hrun hoe
    simp [render_png, pngBody]
  · intro hrun hoe
    rcases senv with ⟨run, oe⟩
    simp only at hrun hoe
    subst hrun hoe
    simp [render_stl, stlBody]

/-- Witness for C7 at a concrete input: exit code 0 with no output file. -/
theorem C7_output_checked_witness :
    (render_png 120 ⟨false, "", ProcResult.finished 0 "", false⟩).1
      = (false, some "Preview image not created")
    ∧ (render_stl 120 ⟨ProcResult.finished 0 "", false⟩).1
      = (false, some "STL file not created") := by
  have h := C7_output_checked 120 ⟨false, "", ProcResult.finished 0 "", false⟩
    ⟨ProcResult.finished 0 "", false⟩ "" "" rfl
  exact ⟨h.1 rfl rfl, h.2.2.1 rfl rfl⟩

/-! ## Job records and the queue processor (`queue_processor.py`)

The job dictionary popped from the `render_queue` list carries the keys
written at submission by `RenderManager.submit_render_job`
(`render_manager.py` lines 39-47): `job_id`, `scad_path`, `format`,
`status`, plus the keys the processor may add (`preview_url`, `stl_url`,
`error`), modelled as optional fields that are `none` when the key is
absent from the dictionary. -/

structure JobRecord where
  job_id : String
  scad_path : String
  format : String
  status : String
  preview_url : Option String := none
  stl_url : Option String := none
  error : Option String := none
deriving DecidableEq

/-- The Redis record store, keyed by `job:{job_id}`. -/
def Store := String → Option JobRecord

/-- `redis.setex(key, ttl, json.dumps(job))`: a full-replacement write of
the serialized record under the key (the 3600-second TTL, refreshed by
every write, is not represented). -/
def setex (s : Store) (k : String) (v : JobRecord) : Store :=
  fun q => if q = k then some v else s q

/-- Observable actions of one `process_job` call, in program order:
record writes to the store and invocations of the two sub-renders. -/
inductive PEvent where
  | renderPreview
  | renderStl
  | writeRec (r : JobRecord)
deriving DecidableEq

/-- Environment of one `process_job` call: the behaviour of the external
tool for the preview sub-render and for the export sub-render. -/
structure JobEnv where
  png : PngEnv
  stl : StlEnv
deriving DecidableEq

/-- `f"/api/v1/render/{job_id}/preview"` (queue_processor.py line 65). -/
def previewUrlOf (id : String) : String := "/api/v1/render/" ++ id ++ "/preview"

/-- `f"/api/v1/render/{job_id}/download"` (queue_processor.py line 76). -/
def stlUrlOf (id : String) : String := "/api/v1/render/" ++ id ++ "/download"

/-- The first record write (queue_processor.py lines 53-55):
`job['status'] = 'processing'` on the in-memory dictionary popped from
the queue, then `setex`. -/
def procRecord (job : JobRecord) : JobRecord := { job with status := "processing" }

/-- The error-accumulation idiom of lines 67-68 and 78-79:
`elif error: errors.append(f"{tag}{error}")` — Python truthiness skips
both `None` and the empty string. -/
def accumErr (tag : String) (errs : List String) (res : Bool × Option String) : List String :=
  if res.1 then errs
  else
    match res.2 with
    | some e => if e ≠ "" then errs ++ [tag ++ e] else errs
    | none => errs

/-- Lines 58-79 of `process_job`: the preview render is invoked
unconditionally; the STL render is invoked iff
`job['format'] in ['stl', 'both']`.  Returns the job dictionary after the
sub-renders, the accumulated error list, and the render events. -/
def renderSteps (timeoutS : Nat) (job : JobRecord) (env : JobEnv) :
    JobRecord × List String × List PEvent :=
  let pres := (render_png timeoutS env.png).1
  let job2 :=
    if pres.1 then { procRecord job with preview_url := some (previewUrlOf job.job_id) }
    else procRecord job
  let errs1 := accumErr "Preview: " [] pres
  if job.format = "stl" ∨ job.format = "both" then
    let sres := (render_stl timeoutS env.stl).1
    ((if sres.1 then { job2 with stl_url := some (stlUrlOf job.job_id) } else job2),
      accumErr "STL: " errs1 sres,
      [PEvent.renderPreview, PEvent.renderStl])
  else
    (job2, errs1, [PEvent.renderPreview])

/-- Lines 81-93 of `process_job`: if any error was accumulated the job
dictionary gets `status='failed'` and `error='; '.join(errors)`,
otherwise `status='completed'`.  (The `except` clause of lines 90-93 is
dead under this model: both renderer calls catch their own exceptions and
return result tuples, and the remaining statements of the `try` block are
pure dictionary and path operations.) -/
def finalRecord (timeoutS : Nat) (job : JobRecord) (env : JobEnv) : JobRecord :=
  let r := renderSteps timeoutS job env
  if r.2.1 ≠ [] then
    { r.1 with status := "failed", error := some (String.intercalate "; " r.2.1) }
  else
    { r.1 with status := "completed" }

/-- `RenderQueueProcessor.process_job` (queue_processor.py lines 42-96):
persist `status='processing'` (full-replacement `setex` of the in-memory
dictionary), run the sub-renders, persist the final dictionary.  Returns
the resulting store and the ordered event trace. -/
def process_job (timeoutS : Nat) (job : JobRecord) (env : JobEnv) (store : Store) :
    Store × List PEvent :=
  let key := "job:" ++ job.job_id
  (setex (setex store key (procRecord job)) key (finalRecord timeoutS job env),
    PEvent.writeRec (procRecord job)
      :: ((renderSteps timeoutS job env).2.2 ++ [PEvent.writeRec (finalRecord timeoutS job env)]))

/-- The sequence of record values written to the store, extracted from
the event trace. -/
def writesOf (tr : List PEvent) : List JobRecord :=
  tr.filterMap fun e =>
    match e with
    | .writeRec r => some r
    | _ => none

/-- Rank of a job status along the specified forward order
queued → processing → {completed, failed}. -/
def statusRank : String → Nat
  | "queued" => 0
  | "processing" => 1
  | "completed" => 2
  | "failed" => 2
  | _ => 0

/-! ### Helper lemmas about strings and the processor -/

theorem append_ne_left (a b : String) (h : a ≠ "") : a ++ b ≠ "" := by
  intro hab
  apply h
  have hlen := congrArg String.length hab
  rw [String.length_append, String.length_empty] at hlen
  have ha : a.length = 0 := by omega
  exact String.ext (List.length_eq_zero.mp ha)

theorem intercalate_go_ne (l : List String) (acc : String) (h : acc ≠ "") :
    String.intercalate.go acc "; " l ≠ "" := by
  induction l generalizing acc with
  | nil => simpa [String.intercalate.go] using h
  | cons b bs ih =>
    rw [String.intercalate.go]
    exact ih _ (append_ne_left _ _ (append_ne_left _ _ h))

theorem intercalate_ne (a : String) (l : List String) (h : a ≠ "") :
    String.intercalate "; " (a :: l) ≠ "" := by
  rw [String.intercalate]
  exact intercalate_go_ne l a h

theorem setex_same (s : Store) (k : String) (v : JobRecord) : setex s k v k = some v := by
  simp [setex]

theorem process_job_store_at (timeoutS : Nat) (job : JobRecord) (env : JobEnv) (s : Store) :
    (process_job timeoutS job env s).1 ("job:" ++ job.job_id)
      = some (finalRecord timeoutS job env) := by
  simp [process_job, setex]

theorem renderSteps_events (timeoutS : Nat) (job : JobRecord) (env : JobEnv) :
    (renderSteps timeoutS job env).2.2
      = if job.format = "stl" ∨ job.format = "both" then
          [PEvent.renderPreview, PEvent.renderStl]
        else [PEvent.renderPreview] := by
  unfold renderSteps
  split <;> simp

theorem writesOf_process_job (timeoutS : Nat) (job : JobRecord) (env : JobEnv) (s : Store) :
    writesOf (process_job timeoutS job env s).2
      = [procRecord job, finalRecord timeoutS job env] := by
  simp only [process_job, writesOf, List.filterMap_cons, List.filterMap_append]
  rw [renderSteps_events]
  split <;> simp [List.filterMap]

theorem accumErr_mem_ne (tag : String) (errs : List String) (res : Bool × Option String)
    (htag : tag ≠ "") (hall : ∀ x ∈ errs, x ≠ "") :
    ∀ x ∈ accumErr tag errs res, x ≠ "" := by
  unfold accumErr
  split
  · exact hall
  · rcases res with ⟨b, e⟩
    cases e with
    | none => exact hall
    | some e =>
      simp only
      split
      · intro x hx
        rcases List.mem_append.mp hx with hx | hx
        · exact hall x hx
        · rcases List.mem_singleton.mp hx with rfl
          exact append_ne_left _ _ htag
      · exact hall

theorem renderSteps_errs_ne (timeoutS : Nat) (job : JobRecord) (env : JobEnv) :
    ∀ x ∈ (renderSteps timeoutS job env).2.1, x ≠ "" := by
  unfold renderSteps
  have h1 : ∀ x ∈ accumErr "Preview: " [] (render_png timeoutS env.png).1, x ≠ "" :=
    accumErr_mem_ne _ _ _ (by decide) (by simp)
  split
  · exact accumErr_mem_ne _ _ _ (by decide) h1
  · exact h1

theorem finalRecord_failed (timeoutS : Nat) (job : JobRecord) (env : JobEnv)
    (h : (renderSteps timeoutS job env).2.1 ≠ []) :
    finalRecord timeoutS job env
      = { (renderSteps timeoutS job env).1 with
          status := "failed",
          error := some (String.intercalate "; " (renderSteps timeoutS job env).2.1) } := by
  unfold finalRecord
  simp [h]

theorem finalRecord_completed (timeoutS : Nat) (job : JobRecord) (env : JobEnv)
    (h : (renderSteps timeoutS job env).2.1 = []) :
    finalRecord timeoutS job env
      = { (renderSteps timeoutS job env).1 with status := "completed" } := by
  unfold finalRecord
  simp [h]

theorem finalRecord_status (timeoutS : Nat) (job : JobRecord) (env : JobEnv) :
    (finalRecord timeoutS job env).status = "completed"
      ∨ (finalRecord timeoutS job env).status = "failed" := by
  by_cases h : (renderSteps timeoutS job env).2.1 = []
  · left
    rw [finalRecord_completed _ _ _ h]
  · right
    rw [finalRecord_failed _ _ _ h]

theorem renderSteps_errs_of_stl (timeoutS : Nat) (job : JobRecord) (env : JobEnv)
    (hfmt : job.format = "stl" ∨ job.format = "both") :
    (renderSteps timeoutS job env).2.1
      = accumErr "STL: " (accumErr "Preview: " [] (render_png timeoutS env.png).1)
          (render_stl timeoutS env.stl).1 := by
  unfold renderSteps
  rw [if_pos hfmt]

/-! ### Concrete scenarios used by counterexamples and witnesses -/

/-- The store with no records. -/
def emptyStore : Store := fun _ => none

/-- A queue entry as built by `submit_render_job` with `format='both'`. -/
def entryBoth : JobRecord :=
  { job_id := "j1", scad_path := "/data/scad_files/j1.scad", format := "both", status := "queued" }

/-- A queue entry with `format='stl'` (export only). -/
def entryStl : JobRecord :=
  { job_id := "j2", scad_path := "/data/scad_files/j2.scad", format := "stl", status := "queued" }

/-- A queue entry with `format='png'` (preview only). -/
def entryPng : JobRecord :=
  { job_id := "j3", scad_path := "/data/scad_files/j3.scad", format := "png", status := "queued" }

/-- Both sub-renders succeed. -/
def envOk : JobEnv :=
  ⟨⟨false, "", ProcResult.finished 0 "", true⟩, ⟨ProcResult.finished 0 "", true⟩⟩

/-- The preview tool exits 1 with stderr `boom`; the export succeeds. -/
def envPngFail : JobEnv :=
  ⟨⟨false, "", ProcResult.finished 1 "boom", true⟩, ⟨ProcResult.finished 0 "", true⟩⟩

/-- Both tools exit 1 with non-empty stderr. -/
def envBothFail : JobEnv :=
  ⟨⟨false, "", ProcResult.finished 1 "bad1", true⟩, ⟨ProcResult.finished 1 "bad2", true⟩⟩

/-- The preview tool exits 1 with whitespace-only stderr (strips to the
empty string); the export succeeds. -/
def envWsFail : JobEnv :=
  ⟨⟨false, "", ProcResult.finished 1 "\n", true⟩, ⟨ProcResult.finished 0 "", true⟩⟩

/-- The stored record of a job that already completed (both locations
set), as it looks when a crashed processor left its queue entry to be
redelivered. -/
def recDone : JobRecord :=
  { entryBoth with
    status := "completed",
    preview_url := some (previewUrlOf "j1"),
    stl_url := some (stlUrlOf "j1") }

/-- A store holding the completed record for job `j1`. -/
def storeDone : Store := fun k => if k = "job:j1" then some recDone else none

/-! ### Claims C1, C3, C4, C8, C9 -/

/-- **C3, counterexample.** The claim says no write by the processor ever
moves a record's status backward.  At this concrete input the stored
record for job `j1` already says completed; processing a redelivered
queue entry for it starts with a write of status=processing, a backward
edge (rank 1 < rank 2). -/
theorem C3_counterexample :
    (writesOf (process_job 120 entryBoth envOk storeDone).2).head?
      = some (procRecord entryBoth)
    ∧ storeDone "job:j1" = some recDone
    ∧ recDone.status = "completed"
    ∧ (procRecord entryBoth).status = "processing"
    ∧ statusRank (procRecord entryBoth).status < statusRank recDone.status := by
  decide

/-- **C3, amended.** Within each single `process_job` invocation the
processor writes exactly two records: first one with status=processing,
then one whose status is completed or failed; no written status is ever
`queued`.  (The redelivery of an entry for an already-completed record,
however, regresses that record to processing — see the counterexample.) -/
theorem C3_amended (timeoutS : Nat) (job : JobRecord) (env : JobEnv) (s : Store) :
    writesOf (process_job timeoutS job env s).2
      = [procRecord job, finalRecord timeoutS job env]
    ∧ (procRecord job).status = "processing"
    ∧ ((finalRecord timeoutS job env).status = "completed"
        ∨ (finalRecord timeoutS job env).status = "failed")
    ∧ (procRecord job).status ≠ "queued"
    ∧ (finalRecord timeoutS job env).status ≠ "queued" := by
  refine ⟨writesOf_process_job timeoutS job env s, rfl, finalRecord_status timeoutS job env,
    fun hq => absurd hq (show ¬ ("processing" = "queued") by decide), ?_⟩
  rcases finalRecord_status timeoutS job env with h | h <;> rw [h] <;> decide

/-- **C4.** Every record write of the processor replaces the whole stored
record under `job:{job_id}` with a value computed solely from the
dequeued entry and the render outcomes: the event trace (and hence every
written record) is identical for any two prior stores; the final store
holds exactly the processor's final dictionary; the first write is the
entry with status=processing, and `setex` makes it the stored record no
matter what record (for example a completed one) was there before. -/
theorem C4_full_replacement (timeoutS : Nat) (job : JobRecord) (env : JobEnv)
    (s sB : Store) :
    (process_job timeoutS job env s).2 = (process_job timeoutS job env sB).2
    ∧ (process_job timeoutS job env s).1 ("job:" ++ job.job_id)
        = some (finalRecord timeoutS job env)
    ∧ (writesOf (process_job timeoutS job env s).2).head? = some (procRecord job)
    ∧ (∀ old, s ("job:" ++ job.job_id) = some old →
        setex s ("job:" ++ job.job_id) (procRecord job) ("job:" ++ job.job_id)
          = some (procRecord job))
    ∧ (procRecord job).status = "processing" := by
  refine ⟨rfl, process_job_store_at timeoutS job env s, ?_, ?_, rfl⟩
  · rw [writesOf_process_job]
    rfl
  · intro old hold
    exact setex_same s _ _

/-- Witness for C4 at a concrete input: a redelivered entry over a store
whose record already says completed. -/
theorem C4_full_replacement_witness :
    (process_job 120 entryBoth envOk storeDone).2
      = (process_job 120 entryBoth envOk emptyStore).2
    ∧ setex storeDone ("job:" ++ entryBoth.job_id) (procRecord entryBoth)
        ("job:" ++ entryBoth.job_id) = some (procRecord entryBoth) := by
  have h := C4_full_replacement 120 entryBoth envOk storeDone emptyStore
  exact ⟨h.1, h.2.2.2.1 recDone (by decide)⟩

/-- **C8, counterexample.** The claim says that whenever any attempted
sub-render fails the final persisted status is failed.  At this concrete
input the preview sub-render is attempted and fails (exit 1 with
whitespace-only stderr, which strips to the empty string), yet the
Python truthiness check `elif preview_error:` drops the empty message and
the job is persisted as completed. -/
theorem C8_counterexample :
    entryPng.format = "png"
    ∧ (render_png 120 envWsFail.png).1 = (false, some "")
    ∧ (process_job 120 entryPng envWsFail emptyStore).1 "job:j3"
        = some { entryPng with status := "completed" } := by
  decide

/-- **C8, amended.** A preview failure does not prevent the export
attempt; when both sub-renders fail with non-empty reasons the final
error message is both reasons concatenated with `; `, and the final
status is failed.  (A sub-render failure whose error message is empty is
silently dropped by the truthiness check — see the counterexample.) -/
theorem C8_amended (timeoutS : Nat) (job : JobRecord) (env : JobEnv) (s : Store)
    (ep es : String)
    (hfmt : job.format = "stl" ∨ job.format = "both")
    (hp : (render_png timeoutS env.png).1 = (false, some ep)) (hep : ep ≠ "")
    (hs : (render_stl timeoutS env.stl).1 = (false, some es)) (hes : es ≠ "") :
    PEvent.renderStl ∈ (process_job timeoutS job env s).2
    ∧ (process_job timeoutS job env s).1 ("job:" ++ job.job_id)
        = some (finalRecord timeoutS job env)
    ∧ (finalRecord timeoutS job env).status = "failed"
    ∧ (finalRecord timeoutS job env).error
        = some ("Preview: " ++ ep ++ "; " ++ ("STL: " ++ es)) := by
  have herr1 : accumErr "Preview: " [] (render_png timeoutS env.png).1
      = ["Preview: " ++ ep] := by
    rw [hp]
    unfold accumErr
    simp [hep]
  have herr2 : (renderSteps timeoutS job env).2.1
      = ["Preview: " ++ ep, "STL: " ++ es] := by
    rw [renderSteps_errs_of_stl timeoutS job env hfmt, herr1, hs]
    unfold accumErr
    simp [hes]
  have hne : (renderSteps timeoutS job env).2.1 ≠ [] := by
    rw [herr2]
    simp
  refine ⟨?_, process_job_store_at timeoutS job env s, ?_, ?_⟩
  · simp only [process_job]
    refine List.mem_cons_of_mem _ (List.mem_append_left _ ?_)
    rw [renderSteps_events, if_pos hfmt]
    simp
  · rw [finalRecord_failed _ _ _ hne]
  · rw [finalRecord_failed _ _ _ hne]
    simp only [herr2]
    rfl

/-- Witness for C8 (amended) at a concrete input: `format='both'`, both
tools exit 1 with non-empty stderr. -/
theorem C8_amended_witness :
    PEvent.renderStl ∈ (process_job 120 entryBoth envBothFail emptyStore).2
    ∧ (finalRecord 120 entryBoth envBothFail).status = "failed"
    ∧ (finalRecord 120 entryBoth envBothFail).error = some "Preview: bad1; STL: bad2" := by
  have h := C8_amended 120 entryBoth envBothFail emptyStore "bad1" "bad2"
    (Or.inr rfl) (by decide) (by decide) (by decide) (by decide)
  refine ⟨h.1, h.2.2.1, ?_⟩
  rw [h.2.2.2]
  decide

/-- **C9.** For every job record written by the processor, whenever its
status is failed, its error field is present and non-empty: every string
appended to the error list is non-empty (it carries a `Preview: ` or
`STL: ` tag and a non-empty reason, by the truthiness guard), and the
failed branch stores their `'; '`-join. -/
theorem C9_failed_error_nonempty (timeoutS : Nat) (job : JobRecord) (env : JobEnv)
    (s : Store) (rec : JobRecord)
    (h : (process_job timeoutS job env s).1 ("job:" ++ job.job_id) = some rec)
    (hf : rec.status = "failed") :
    rec.error ≠ none ∧ rec.error ≠ some "" := by
  rw [process_job_store_at] at h
  have hrec := Option.some.inj h
  subst hrec
  by_cases hn : (renderSteps timeoutS job env).2.1 = []
  · rw [finalRecord_completed _ _ _ hn] at hf
    exact absurd hf (show ¬ ("completed" = "failed") by decide)
  · rw [finalRecord_failed _ _ _ hn]
    cases herrs : (renderSteps timeoutS job env).2.1 with
    | nil => exact absurd herrs hn
    | cons a l =>
      have ha : a ≠ "" := renderSteps_errs_ne timeoutS job env a (by rw [herrs]; simp)
      have hjoin : String.intercalate "; " (a :: l) ≠ "" := intercalate_ne a l ha
      constructor
      · simp
      · simp only [herrs]
        intro hcontra
        exact hjoin (Option.some.inj hcontra)

/-- Witness for C9 at a concrete input: the failed `format='stl'` job
with preview error `boom`. -/
theorem C9_failed_error_nonempty_witness :
    (finalRecord 120 entryStl envPngFail).status = "failed"
    ∧ (finalRecord 120 entryStl envPngFail).error ≠ none
    ∧ (finalRecord 120 entryStl envPngFail).error ≠ some "" := by
  have h := C9_failed_error_nonempty 120 entryStl envPngFail emptyStore
    (finalRecord 120 entryStl envPngFail)
    (process_job_store_at 120 entryStl envPngFail emptyStore) (by decide)
  exact ⟨by decide, h.1, h.2⟩

/-! ## Cleanup sweeper (`backend/app/core/cleanup.py`)

The filesystem is modelled per directory: a directory either does not
exist, or raises while being iterated (`iterdir` failure, caught by the
outer per-directory `except`), or yields a list of entries.  Each entry
carries the observations and fault behaviour of the `stat`/`unlink`
calls the sweep performs on it. -/

structure FileEnt where
  name : String
  isFile : Bool
  mtime : Int
  size : Nat
  statFails : Bool
  unlinkFails : Bool
deriving DecidableEq

inductive DirContent where
  | missing
  | iterFails
  | avail (files : List FileEnt)
deriving DecidableEq

/-- The data directory: maps a subdirectory name to its content. -/
def FS := String → DirContent

/-- The statistics dictionary returned by the sweep
(`{"deleted": ..., "errors": ..., "freed_bytes": ...}`). -/
structure CleanStats where
  deleted : Nat
  errors : Nat
  freed_bytes : Nat
deriving DecidableEq

def addStats (a b : CleanStats) : CleanStats :=
  ⟨a.deleted + b.deleted, a.errors + b.errors, a.freed_bytes + b.freed_bytes⟩

/-- The per-file body of the sweep (cleanup.py lines 56-72):
skip non-files; `stat` the mtime (a raise is counted as one error and the
file survives); delete files strictly older than the cutoff, counting
the deletion and the freed size, or count one error if `unlink` raises
(the file survives). -/
def fileStep (cutoff : Int) (f : FileEnt) : CleanStats × Option FileEnt :=
  if f.isFile = false then (⟨0, 0, 0⟩, some f)
  else if f.statFails then (⟨0, 1, 0⟩, some f)
  else if f.mtime < cutoff then
    if f.unlinkFails then (⟨0, 1, 0⟩, some f)
    else (⟨1, 0, f.size⟩, none)
  else (⟨0, 0, 0⟩, some f)

/-- The `for file_path in directory.iterdir()` loop: per-file errors do
not abort the iteration. -/
def cleanupFiles (cutoff : Int) : List FileEnt → CleanStats × List FileEnt
  | [] => (⟨0, 0, 0⟩, [])
  | f :: rest =>
    let r1 := fileStep cutoff f
    let r2 := cleanupFiles cutoff rest
    (addStats r1.1 r2.1, r1.2.toList ++ r2.2)

/-- One directory of the sweep (cleanup.py lines 51-76): missing
directories are skipped, an iteration failure counts one error and
leaves the directory as is, otherwise the file loop runs. -/
def cleanupDir (cutoff : Int) : DirContent → CleanStats × DirContent
  | .missing => (⟨0, 0, 0⟩, .missing)
  | .iterFails => (⟨0, 1, 0⟩, .iterFails)
  | .avail files =>
    let r := cleanupFiles cutoff files
    (r.1, .avail r.2)

/-- `directories_to_clean` (cleanup.py lines 45-49): the sweep visits
`scad_files`, `renders` and `logs` — the `exports` directory, where the
queue processor writes STL files, is not in the list. -/
def directories_to_clean : List String := ["scad_files", "renders", "logs"]

/-- One step of the directory loop, updating accumulated statistics and
the filesystem. -/
def cleanupStep (cutoff : Int) (acc : CleanStats × FS) (d : String) : CleanStats × FS :=
  let r := cleanupDir cutoff (acc.2 d)
  (addStats acc.1 r.1, fun k => if k = d then r.2 else acc.2 k)

/-- `FileCleanup.cleanup_old_files` (cleanup.py lines 28-91):
`cutoff_time = time.time() - max_age_seconds`; if the data path does not
exist, return zero statistics without touching anything; otherwise sweep
the listed directories in order. -/
def cleanup_old_files (now maxAgeSeconds : Int) (dataPathExists : Bool) (fs : FS) :
    CleanStats × FS :=
  if dataPathExists = false then (⟨0, 0, 0⟩, fs)
  else
    directories_to_clean.foldl (cleanupStep (now - maxAgeSeconds)) (⟨0, 0, 0⟩, fs)

/-- Specification predicate: the sweep deletes `f` (a regular file whose
`stat` succeeds, whose mtime is strictly older than the cutoff and whose
`unlink` succeeds). -/
def fileIsDeleted (cutoff : Int) (f : FileEnt) : Bool :=
  f.isFile && !f.statFails && decide (f.mtime < cutoff) && !f.unlinkFails

/-- Specification predicate: the sweep counts an error for `f`. -/
def fileIsError (cutoff : Int) (f : FileEnt) : Bool :=
  f.isFile && (f.statFails || (decide (f.mtime < cutoff) && f.unlinkFails))

/-- Total size of a list of entries. -/
def totalSize (l : List FileEnt) : Nat := (l.map fun f => f.size).sum

/-! ### Helper lemmas about the sweeper -/

theorem fileStep_eq (cutoff : Int) (f : FileEnt) :
    fileStep cutoff f
      = (⟨if fileIsDeleted cutoff f then 1 else 0,
          if fileIsError cutoff f then 1 else 0,
          if fileIsDeleted cutoff f then f.size else 0⟩,
         if fileIsDeleted cutoff f then none else some f) := by
  rcases f with ⟨n, isf, mt, sz, sf, uf⟩
  by_cases hm : mt < cutoff <;>
    cases isf <;> cases sf <;> cases uf <;>
      simp [fileStep, fileIsDeleted, fileIsError, hm]

theorem cleanupFiles_eq (cutoff : Int) (l : List FileEnt) :
    cleanupFiles cutoff l
      = (⟨l.countP (fileIsDeleted cutoff),
          l.countP (fileIsError cutoff),
          totalSize (l.filter (fileIsDeleted cutoff))⟩,
         l.filter (fun f => !(fileIsDeleted cutoff f))) := by
  induction l with
  | nil => simp [cleanupFiles, totalSize]
  | cons f rest ih =>
    by_cases hd : fileIsDeleted cutoff f <;>
      simp [cleanupFiles, ih, fileStep_eq, addStats, hd, List.countP_cons, List.filter_cons,
        totalSize, Nat.add_comm]

theorem cleanupFiles_idem (cutoff : Int) (l : List FileEnt) :
    (cleanupFiles cutoff (cleanupFiles cutoff l).2).1.deleted = 0
    ∧ (cleanupFiles cutoff (cleanupFiles cutoff l).2).1.freed_bytes = 0 := by
  rw [cleanupFiles_eq, cleanupFiles_eq]
  constructor
  · simp only
    rw [List.countP_eq_zero]
    intro f hf
    have := (List.mem_filter.mp hf).2
    simp only [Bool.not_eq_eq_eq_not, Bool.not_true] at this
    simp [this]
  · simp only
    rw [List.filter_filter]
    have : ∀ f : FileEnt,
        (fileIsDeleted cutoff f && !(fileIsDeleted cutoff f)) = false := by
      intro f
      cases fileIsDeleted cutoff f <;> rfl
    simp [this, totalSize]

theorem cleanupDir_idem (cutoff : Int) (d : DirContent) :
    (cleanupDir cutoff (cleanupDir cutoff d).2).1.deleted = 0
    ∧ (cleanupDir cutoff (cleanupDir cutoff d).2).1.freed_bytes = 0 := by
  cases d with
  | missing => simp [cleanupDir]
  | iterFails => simp [cleanupDir]
  | avail l =>
    simpa [cleanupDir] using cleanupFiles_idem cutoff l

/-- Directory contents that are the output of a sweep. -/
def IsPost (cutoff : Int) (dc : DirContent) : Prop :=
  ∃ b, dc = (cleanupDir cutoff b).2

theorem foldl_fs_untouched (cutoff : Int) (ds : List String) (init : CleanStats × FS)
    (k : String) (hk : k ∉ ds) :
    (ds.foldl (cleanupStep cutoff) init).2 k = init.2 k := by
  induction ds generalizing init with
  | nil => rfl
  | cons d rest ih =>
    rw [List.foldl_cons, ih _ (fun h => hk (List.mem_cons_of_mem _ h))]
    have hkd : k ≠ d := fun h => hk (h ▸ List.mem_cons_self d rest)
    simp [cleanupStep, hkd]

theorem foldl_fs_post (cutoff : Int) (ds : List String) (init : CleanStats × FS)
    (d : String) (hd : d ∈ ds) :
    IsPost cutoff ((ds.foldl (cleanupStep cutoff) init).2 d) := by
  induction ds generalizing init with
  | nil => cases hd
  | cons a rest ih =>
    rw [List.foldl_cons]
    rcases List.mem_cons.mp hd with rfl | hmem
    · by_cases hdr : d ∈ rest
      · exact ih _ hdr
      · rw [foldl_fs_untouched cutoff rest _ d hdr]
        exact ⟨init.2 d, by simp [cleanupStep]⟩
    · exact ih _ hmem

theorem foldl_stats_of_post (cutoff : Int) (ds : List String) (init : CleanStats × FS)
    (hpost : ∀ d ∈ ds, IsPost cutoff (init.2 d)) :
    (ds.foldl (cleanupStep cutoff) init).1.deleted = init.1.deleted
    ∧ (ds.foldl (cleanupStep cutoff) init).1.freed_bytes = init.1.freed_bytes := by
  induction ds generalizing init with
  | nil => exact ⟨rfl, rfl⟩
  | cons a rest ih =>
    rw [List.foldl_cons]
    obtain ⟨b, hb⟩ := hpost a (List.mem_cons_self a rest)
    have hz := cleanupDir_idem cutoff b
    have hstep : (cleanupStep cutoff init a).1.deleted = init.1.deleted
        ∧ (cleanupStep cutoff init a).1.freed_bytes = init.1.freed_bytes := by
      constructor <;> simp [cleanupStep, addStats, hb, hz.1, hz.2]
    have hpost2 : ∀ d ∈ rest, IsPost cutoff ((cleanupStep cutoff init a).2 d) := by
      intro d hd
      by_cases hda : d = a
      · subst hda
        exact ⟨init.2 d, by simp [cleanupStep]⟩
      · simpa [cleanupStep, hda] using hpost d (List.mem_cons_of_mem _ hd)
    have hrest := ih _ hpost2
    exact ⟨hrest.1.trans hstep.1, hrest.2.trans hstep.2⟩

/-- An STL export older than any positive retention cutoff. -/
def oldStl : FileEnt :=
  { name := "a.stl", isFile := true, mtime := 0, size := 5,
    statFails := false, unlinkFails := false }

/-- A data directory whose `exports` subdirectory holds one old STL file
and whose other subdirectories are empty. -/
def fsExports : FS := fun d => if d = "exports" then .avail [oldStl] else .avail []

/-! ### Claims C2 and C10 -/

/-- **C2, counterexample.** The claim says the sweep examines the
exports directory and deletes an STL file older than the retention age.
At this concrete input (retention 3600 s, an STL in `exports` with mtime
well past the cutoff) the sweep deletes nothing and the `exports`
directory is untouched: `exports` is not in `directories_to_clean`. -/
theorem C2_counterexample :
    oldStl.mtime < 1000000 - 3600
    ∧ (cleanup_old_files 1000000 3600 true fsExports).2 "exports"
        = DirContent.avail [oldStl]
    ∧ (cleanup_old_files 1000000 3600 true fsExports).1.deleted = 0 := by
  decide

/-- **C2, amended.** Every run of the sweep examines exactly the
`scad_files` (scripts), `renders` (previews) and `logs` directories,
leaving every other directory — in particular `exports`, so every STL
export — untouched; within a visited directory it deletes precisely the
regular files whose modification time is older than the cutoff and whose
`stat`/`unlink` succeed, and a per-file error is counted in the error
count without aborting the rest of the sweep (the deletion count over
the whole list is unaffected by the presence of erroring files). -/
theorem C2_amended (now age : Int) (fs : FS) (l : List FileEnt) :
    (cleanup_old_files now age true fs).2 "exports" = fs "exports"
    ∧ (cleanup_old_files now age true fs).2 "scad_files"
        = (cleanupDir (now - age) (fs "scad_files")).2
    ∧ (cleanup_old_files now age true fs).2 "renders"
        = (cleanupDir (now - age) (fs "renders")).2
    ∧ (cleanup_old_files now age true fs).2 "logs"
        = (cleanupDir (now - age) (fs "logs")).2
    ∧ (cleanup_old_files now age true fs).1
        = addStats (addStats (addStats ⟨0, 0, 0⟩ (cleanupDir (now - age) (fs "scad_files")).1)
            (cleanupDir (now - age) (fs "renders")).1)
            (cleanupDir (now - age) (fs "logs")).1
    ∧ (cleanupFiles (now - age) l).1.deleted = l.countP (fileIsDeleted (now - age))
    ∧ (cleanupFiles (now - age) l).1.errors = l.countP (fileIsError (now - age))
    ∧ (cleanupFiles (now - age) l).2 = l.filter (fun f => !(fileIsDeleted (now - age) f)) := by
  have hsr : ("scad_files" : String) ≠ "renders" := by decide
  have hsl : ("scad_files" : String) ≠ "logs" := by decide
  have hrl : ("renders" : String) ≠ "logs" := by decide
  have hrs : ("renders" : String) ≠ "scad_files" := by decide
  have hls : ("logs" : String) ≠ "scad_files" := by decide
  have hlr : ("logs" : String) ≠ "renders" := by decide
  refine ⟨?_, ?_, ?_, ?_, ?_, ?_, ?_, ?_⟩
  · exact foldl_fs_untouched _ _ _ "exports" (by decide)
  · simp only [cleanup_old_files, directories_to_clean, List.foldl_cons, List.foldl_nil]
    simp [cleanupStep, hsr, hsl]
  · simp only [cleanup_old_files, directories_to_clean, List.foldl_cons, List.foldl_nil]
    simp [cleanupStep, hrl, hrs]
  · simp only [cleanup_old_files, directories_to_clean, List.foldl_cons, List.foldl_nil]
    simp [cleanupStep, hls, hlr]
  · simp only [cleanup_old_files, directories_to_clean, List.foldl_cons, List.foldl_nil]
    simp [cleanupStep, hrs, hls, hlr]
  · rw [cleanupFiles_eq]
  · rw [cleanupFiles_eq]
  · rw [cleanupFiles_eq]

/-- **C10.** Running the cleanup sweep twice in succession over the same
directories, with nothing changed in between (same clock reading, same
per-file fault behaviour), yields zero deletions and zero freed bytes on
the second run: the first run removed every file it could delete, the
survivors (non-files, too-new files, files whose `stat`/`unlink` keep
failing) are not deletable on the second pass either, and untouched
directories are not visited at all. -/
theorem C10_cleanup_idempotent (now age : Int) (pe : Bool) (fs : FS) :
    (cleanup_old_files now age pe (cleanup_old_files now age pe fs).2).1.deleted = 0
    ∧ (cleanup_old_files now age pe (cleanup_old_files now age pe fs).2).1.freed_bytes
        = 0 := by
  cases pe with
  | false => simp [cleanup_old_files]
  | true =>
    simp only [cleanup_old_files, Bool.true_eq_false, if_false]
    refine foldl_stats_of_post (now - age) directories_to_clean _ ?_
    intro d hd
    exact foldl_fs_post (now - age) directories_to_clean _ d hd

end AiOpenscad
